import Mathlib

/-!
Verification of the GoToMarket Compliance Lab backend (`server.js`).

The development shallowly embeds the response-normalizing function
`parseGeminiJSON`, the `/api/analyze` route handler, the report CRUD
routes (`/api/reports`), and the `/api/auth/register` route, together
with a model of JavaScript's `JSON.parse` over character lists, and
proves the specified properties about them.
-/

namespace GoGlobal

/-- Model of a parsed JSON value (result of `JSON.parse`).  Numbers are
kept as their source lexemes so that no floating-point semantics is
needed; none of the verified properties depends on numeric values. -/
inductive JVal where
  | jnull
  | jbool (b : Bool)
  | jnum (lexeme : String)
  | jstr (s : String)
  | jarr (elems : List JVal)
  | jobj (fields : List (String × JVal))

/-- JSON grammar whitespace accepted by `JSON.parse`: space, tab, LF, CR. -/
def isJsonWs (c : Char) : Bool :=
  c = ' ' || c = '\t' || c = '\n' || c = '\r'

def skipWs (cs : List Char) : List Char := cs.dropWhile isJsonWs

/-- Whitespace class of JavaScript's regex `\s` (also the set trimmed by
`String.prototype.trim`). -/
def jsRegexWs (c : Char) : Bool :=
  c.toNat = 0x20 || c.toNat = 0x09 || c.toNat = 0x0a || c.toNat = 0x0b ||
  c.toNat = 0x0c || c.toNat = 0x0d || c.toNat = 0xa0 || c.toNat = 0x1680 ||
  (0x2000 ≤ c.toNat && c.toNat ≤ 0x200a) || c.toNat = 0x2028 ||
  c.toNat = 0x2029 || c.toNat = 0x202f || c.toNat = 0x205f ||
  c.toNat = 0x3000 || c.toNat = 0xfeff

/-- Value of one hexadecimal digit of a `\u` escape, by code point:
`0`-`9` are 48-57, `A`-`F` are 65-70, `a`-`f` are 97-102. -/
def hexVal (c : Char) : Option Nat :=
  let n := c.toNat
  if 48 ≤ n && n ≤ 57 then some (n - 48)
  else if 65 ≤ n && n ≤ 70 then some (n - 55)
  else if 97 ≤ n && n ≤ 102 then some (n - 87)
  else none

/-- Consume an expected literal tail (e.g. `ull` after `n`). -/
def stripLit : List Char → List Char → Option (List Char)
  | [], cs => some cs
  | l :: ls, c :: cs => if c = l then stripLit ls cs else none
  | _ :: _, [] => none

/-- Body of a JSON string after the opening quote: returns the decoded
characters and the remainder after the closing quote. -/
def parseStringBody : List Char → Option (List Char × List Char)
  | [] => none
  | '"' :: rest => some ([], rest)
  | '\\' :: '"' :: r => (parseStringBody r).map (fun p => ('"' :: p.1, p.2))
  | '\\' :: '\\' :: r => (parseStringBody r).map (fun p => ('\\' :: p.1, p.2))
  | '\\' :: '/' :: r => (parseStringBody r).map (fun p => ('/' :: p.1, p.2))
  | '\\' :: 'b' :: r => (parseStringBody r).map (fun p => ('\x08' :: p.1, p.2))
  | '\\' :: 'f' :: r => (parseStringBody r).map (fun p => ('\x0c' :: p.1, p.2))
  | '\\' :: 'n' :: r => (parseStringBody r).map (fun p => ('\n' :: p.1, p.2))
  | '\\' :: 'r' :: r => (parseStringBody r).map (fun p => ('\r' :: p.1, p.2))
  | '\\' :: 't' :: r => (parseStringBody r).map (fun p => ('\t' :: p.1, p.2))
  | '\\' :: 'u' :: u1 :: u2 :: u3 :: u4 :: r =>
    match hexVal u1, hexVal u2, hexVal u3, hexVal u4 with
    | some h1, some h2, some h3, some h4 =>
      (parseStringBody r).map
        (fun p => (Char.ofNat (h1 * 4096 + h2 * 256 + h3 * 16 + h4) :: p.1, p.2))
    | _, _, _, _ => none
  | '\\' :: _ => none
  | c :: rest =>
    if c.toNat < 0x20 then none
    else (parseStringBody rest).map (fun p => (c :: p.1, p.2))

/-- Exponent part of a JSON number lexeme (optional). -/
def parseExpPart (lex : List Char) (cs : List Char) : Option (List Char × List Char) :=
  match cs with
  | c :: r =>
    if c = 'e' || c = 'E' then
      let sr : List Char × List Char :=
        match r with
        | s :: r2 => if s = '+' || s = '-' then ([s], r2) else ([], s :: r2)
        | [] => ([], [])
      match sr.2.takeWhile Char.isDigit with
      | [] => none
      | ds => some (lex ++ c :: sr.1 ++ ds, sr.2.dropWhile Char.isDigit)
    else some (lex, c :: r)
  | [] => some (lex, [])

/-- Fraction part of a JSON number lexeme (optional), then exponent. -/
def parseFracPart (lex : List Char) (cs : List Char) : Option (List Char × List Char) :=
  match cs with
  | '.' :: r =>
    match r.takeWhile Char.isDigit with
    | [] => none
    | ds => parseExpPart (lex ++ '.' :: ds) (r.dropWhile Char.isDigit)
  | _ => parseExpPart lex cs

/-- A JSON number lexeme: optional sign, integer part without leading
zeros, optional fraction, optional exponent. -/
def parseNum (cs : List Char) : Option (List Char × List Char) :=
  let sc : List Char × List Char :=
    match cs with
    | '-' :: r => (['-'], r)
    | _ => ([], cs)
  match sc.2 with
  | '0' :: r => parseFracPart (sc.1 ++ ['0']) r
  | c :: r =>
    if c.isDigit then
      parseFracPart (sc.1 ++ c :: r.takeWhile Char.isDigit) (r.dropWhile Char.isDigit)
    else none
  | [] => none

mutual

/-- Recursive-descent model of `JSON.parse`'s value grammar.  The fuel
argument only bounds recursion depth; `jsonParse` supplies enough fuel
that it never runs out on any input. -/
def parseV : Nat → List Char → Option (JVal × List Char)
  | 0, _ => none
  | fuel + 1, cs =>
    match skipWs cs with
    | [] => none
    | c :: rest =>
      if c = '"' then
        (parseStringBody rest).map (fun p => (JVal.jstr (String.mk p.1), p.2))
      else if c = '\x7b' then parseObjTail fuel rest
      else if c = '[' then parseArrTail fuel rest
      else if c = 'n' then
        (stripLit ['u', 'l', 'l'] rest).map (fun r => (JVal.jnull, r))
      else if c = 't' then
        (stripLit ['r', 'u', 'e'] rest).map (fun r => (JVal.jbool true, r))
      else if c = 'f' then
        (stripLit ['a', 'l', 's', 'e'] rest).map (fun r => (JVal.jbool false, r))
      else (parseNum (c :: rest)).map (fun p => (JVal.jnum (String.mk p.1), p.2))

/-- Array tail, entered after the opening bracket. -/
def parseArrTail : Nat → List Char → Option (JVal × List Char)
  | 0, _ => none
  | fuel + 1, cs =>
    match skipWs cs with
    | [] => none
    | c :: rest =>
      if c = ']' then some (JVal.jarr [], rest)
      else (parseItems fuel (c :: rest)).map (fun p => (JVal.jarr p.1, p.2))

/-- One-or-more comma-separated array elements. -/
def parseItems : Nat → List Char → Option (List JVal × List Char)
  | 0, _ => none
  | fuel + 1, cs =>
    match parseV fuel cs with
    | none => none
    | some (v, r1) =>
      match skipWs r1 with
      | [] => none
      | c :: r2 =>
        if c = ',' then (parseItems fuel r2).map (fun p => (v :: p.1, p.2))
        else if c = ']' then some ([v], r2)
        else none

/-- Object tail, entered after the opening brace. -/
def parseObjTail : Nat → List Char → Option (JVal × List Char)
  | 0, _ => none
  | fuel + 1, cs =>
    match skipWs cs with
    | [] => none
    | c :: rest =>
      if c = '\x7d' then some (JVal.jobj [], rest)
      else (parseMembers fuel (c :: rest)).map (fun p => (JVal.jobj p.1, p.2))

/-- One-or-more comma-separated object members. -/
def parseMembers : Nat → List Char → Option (List (String × JVal) × List Char)
  | 0, _ => none
  | fuel + 1, cs =>
    match skipWs cs with
    | [] => none
    | c :: r0 =>
      if c = '"' then
        match parseStringBody r0 with
        | none => none
        | some (key, r1) =>
          match skipWs r1 with
          | [] => none
          | c2 :: r2 =>
            if c2 = ':' then
              match parseV fuel r2 with
              | none => none
              | some (v, r3) =>
                match skipWs r3 with
                | [] => none
                | c3 :: r4 =>
                  if c3 = ',' then
                    (parseMembers fuel r4).map
                      (fun p => ((String.mk key, v) :: p.1, p.2))
                  else if c3 = '\x7d' then some ([(String.mk key, v)], r4)
                  else none
            else none
      else none

end

/-- Model of `JSON.parse`: parse one value and require at most trailing
whitespace. `none` models a thrown `SyntaxError`. -/
def jsonParse (cs : List Char) : Option JVal :=
  match parseV (3 * cs.length + 9) cs with
  | some (v, rest) => if (skipWs rest).isEmpty then some v else none
  | none => none

/-- True when the text starts with a fenced-code marker followed by the
four letters of the word json, case-insensitively: an occurrence of the
regex pattern used by the first replace in `parseGeminiJSON`. -/
def fenceJsonAt (cs : List Char) : Bool :=
  match cs with
  | t1 :: t2 :: t3 :: a :: b :: c :: d :: _ =>
    t1 = '\x60' && t2 = '\x60' && t3 = '\x60' &&
    a.toLower = 'j' && b.toLower = 's' && c.toLower = 'o' && d.toLower = 'n'
  | _ => false

/-- True when the text starts with a bare fenced-code marker: an
occurrence of the pattern used by the second replace. -/
def fenceAt (cs : List Char) : Bool :=
  match cs with
  | t1 :: t2 :: t3 :: _ => t1 = '\x60' && t2 = '\x60' && t3 = '\x60'
  | _ => false

/-- Scanner for `text.replace(/<fence>json\s*<slash>gi, "")`: scan left
to right, deleting each match (the marker, the word, and trailing
whitespace) and resuming after it.  Structural recursion on a fuel that
only needs to be at least the list length, since every step shortens
the list. -/
def stripJsonFencesF : Nat → List Char → List Char
  | 0, cs => cs
  | _ + 1, [] => []
  | fuel + 1, c :: rest =>
    if fenceJsonAt (c :: rest) then
      stripJsonFencesF fuel ((rest.drop 6).dropWhile jsRegexWs)
    else c :: stripJsonFencesF fuel rest

/-- Model of `text.replace(/<fence>json\s*<slash>gi, "")`. -/
def stripJsonFences (cs : List Char) : List Char := stripJsonFencesF cs.length cs

/-- Scanner for `text.replace(/<fence>\s*<slash>g, "")`. -/
def stripBareFencesF : Nat → List Char → List Char
  | 0, cs => cs
  | _ + 1, [] => []
  | fuel + 1, c :: rest =>
    if fenceAt (c :: rest) then
      stripBareFencesF fuel ((rest.drop 2).dropWhile jsRegexWs)
    else c :: stripBareFencesF fuel rest

/-- Model of `text.replace(/<fence>\s*<slash>g, "")`. -/
def stripBareFences (cs : List Char) : List Char := stripBareFencesF cs.length cs

/-- Model of JavaScript `String.prototype.trim`. -/
def trimJs (cs : List Char) : List Char :=
  ((cs.dropWhile jsRegexWs).reverse.dropWhile jsRegexWs).reverse

/-- The cleaned text tried by the strict tier of `parseGeminiJSON`:
both fence replaces, then trim. -/
def cleanedText (text : List Char) : List Char :=
  trimJs (stripBareFences (stripJsonFences text))

/-- Strict tier: parse the cleaned text as a single JSON value. -/
def strictTier (text : List Char) : Option JVal := jsonParse (cleanedText text)

/-- Model of `text.indexOf(lbrace)` (minus the `-1` encoding). -/
def firstBraceIdx (text : List Char) : Option Nat :=
  text.findIdx? (fun c => c = '\x7b')

/-- Model of `text.lastIndexOf(rbrace)` (minus the `-1` encoding). -/
def lastBraceIdx (text : List Char) : Option Nat :=
  match text.reverse.findIdx? (fun c => c = '\x7d') with
  | some k => some (text.length - 1 - k)
  | none => none

/-- Salvage tier of `parseGeminiJSON`: the body of its catch block.
When the raw text has a first opening brace strictly before its last
closing brace, parse that substring; otherwise throw.  An `Except.error`
models a thrown exception. -/
def salvageTier (text : List Char) : Except String JVal :=
  match firstBraceIdx text, lastBraceIdx text with
  | some i, some j =>
    if i < j then
      match jsonParse ((text.drop i).take (j + 1 - i)) with
      | some v => Except.ok v
      | none => Except.error ("SyntaxError: JSON parse failed")
    else Except.error ("No JSON object found in response")
  | _, _ => Except.error ("No JSON object found in response")

/-- Embedding of `parseGeminiJSON` (server.js): try the strict tier;
on a parse error run the catch block, which extracts the outermost
brace-delimited substring of the raw text or throws. -/
def parseGeminiJSON (text : List Char) : Except String JVal :=
  match jsonParse (cleanedText text) with
  | some v => Except.ok v
  | none =>
    match firstBraceIdx text, lastBraceIdx text with
    | some i, some j =>
      if i < j then
        match jsonParse ((text.drop i).take (j + 1 - i)) with
        | some v => Except.ok v
        | none => Except.error ("SyntaxError: JSON parse failed")
      else Except.error ("No JSON object found in response")
    | _, _ => Except.error ("No JSON object found in response")

/-- JavaScript property lookup on a parsed JSON value.  `JSON.parse`
keeps the last of duplicate keys, hence the reversed search. -/
def jget (v : JVal) (key : String) : Option JVal :=
  match v with
  | JVal.jobj fields => (fields.reverse.find? (fun kv => kv.1 == key)).map (·.2)
  | _ => none

/-- All digits of a JSON number lexeme's mantissa are zero, i.e. its
numeric value is `0` or `-0`. -/
def numLexemeIsZero (lex : String) : Bool :=
  (lex.toList.takeWhile (fun c => c ≠ 'e' && c ≠ 'E')).all
    (fun c => !c.isDigit || c = '0')

/-- JavaScript truthiness of a JSON-parsed value. -/
def jsTruthy : JVal → Bool
  | JVal.jnull => false
  | JVal.jbool b => b
  | JVal.jnum lex => !numLexemeIsZero lex
  | JVal.jstr s => !s.isEmpty
  | JVal.jarr _ => true
  | JVal.jobj _ => true

/-- JavaScript strict equality of a JSON-parsed value with a string
literal: true exactly for that string. -/
def jvalStrEq (v : JVal) (s : String) : Bool :=
  match v with
  | JVal.jstr t => t == s
  | _ => false

/-- Model of `x || dflt` for an optional string (absent and empty are
falsy). -/
def jsStrOr (v : Option String) (dflt : String) : String :=
  match v with
  | some s => if s.isEmpty then dflt else s
  | none => dflt

/-- An uploaded file as multer hands it to the route handlers. -/
structure UploadedFile where
  mimetype : String
  path : String

/-- Model of `s.startsWith(pre)` on the character level. -/
def jsStartsWith (s pre : String) : Bool := pre.toList.isPrefixOf s.toList

/-- Filter used by `filesToImageParts` inlined in the analyze route:
image or PDF files become parts, others are dropped. -/
def isImagePart (f : UploadedFile) : Bool :=
  jsStartsWith f.mimetype ("image/") || f.mimetype == "application/pdf"

/-- A finding item of the demo record with name/nameCn/status/note keys
(shape shared by the ingredient-risk and label-compliance sections). -/
def demoItem (name nameCn status note : String) : JVal :=
  JVal.jobj [("name", JVal.jstr name), ("nameCn", JVal.jstr nameCn),
             ("status", JVal.jstr status), ("note", JVal.jstr note)]

/-- A facility-registration item of the demo record with a value key. -/
def demoFacItem (name nameCn value status : String) : JVal :=
  JVal.jobj [("name", JVal.jstr name), ("nameCn", JVal.jstr nameCn),
             ("value", JVal.jstr value), ("status", JVal.jstr status)]

/-- A marketing-claims item of the demo record. -/
def demoClaimItem (claim claimCn status note : String) : JVal :=
  JVal.jobj [("claim", JVal.jstr claim), ("claimCn", JVal.jstr claimCn),
             ("status", JVal.jstr status), ("note", JVal.jstr note)]

/-- Embedding of `getDemoData(lang)` (server.js): the fixed
demonstration assessment record, bilingual summaries selected by the
language tag. -/
def getDemoData (lang : String) : JVal :=
  JVal.jobj
    [("ingredientRisk", JVal.jobj
      [("status", JVal.jstr ("warn")),
       ("flagCount", JVal.jnum ("3")),
       ("items", JVal.jarr
         [demoItem ("Sodium Benzoate (E211)") ("苯甲酸钠 (E211)") ("pass")
            ("FDA-affirmed GRAS preservative per 21 CFR 184.1733"),
          demoItem ("Red No. 40 (Allura Red)") ("诱惑红40号") ("warn")
            ("Requires specific listing on label per 21 CFR 74"),
          demoItem ("Steviol Glycosides") ("甜菊糖苷") ("pass")
            ("GRAS approved sweetener"),
          demoItem ("Titanium Dioxide (E171)") ("二氧化钛 (E171)") ("fail")
            ("Subject to ongoing regulatory review — requires verification of current guidance")]),
       ("overallRisk", JVal.jstr ("medium")),
       ("riskPercent", JVal.jnum ("55")),
       ("summary", JVal.jstr
         (if lang = "cn" then "检测到 3 项需关注的成分标记，整体风险等级为中等。"
          else "3 ingredient flags detected. Overall risk level is medium."))]),
     ("labelCompliance", JVal.jobj
      [("status", JVal.jstr ("warn")),
       ("passCount", JVal.jnum ("7")),
       ("totalCount", JVal.jnum ("9")),
       ("items", JVal.jarr
         [demoItem ("Nutrition Facts Format (2020)") ("营养成分表格式 (2020)") ("pass")
            ("Compliant"),
          demoItem ("Allergen Declaration (FALCPA)") ("过敏原声明 (FALCPA)") ("warn")
            ("Wheat allergen needs bold or separate Contains line"),
          demoItem ("Net Weight (Dual Units)") ("净含量（双单位）") ("fail")
            ("Missing US customary units (oz)"),
          demoItem ("Country of Origin") ("原产国标注") ("pass")
            ("Clearly displayed"),
          demoItem ("English Product Name") ("英文产品名称") ("pass")
            ("Present and legible")]),
       ("summary", JVal.jstr
         (if lang = "cn" then "9 项标签检查中 7 项通过，2 项需修正。"
          else "7 of 9 label checks passed. 2 items need correction."))]),
     ("facilityRegistration", JVal.jobj
      [("status", JVal.jstr ("info")),
       ("items", JVal.jarr
         [demoFacItem ("FDA Registration Number") ("FDA 注册编号") ("Not provided") ("info"),
          demoFacItem ("Registration Status") ("注册状态") ("Needs verification") ("info"),
          demoFacItem ("US Agent Designated") ("美国代理人") ("Unknown") ("warn"),
          demoFacItem ("FSVP Importer") ("FSVP 进口商") ("Pending") ("warn")]),
       ("summary", JVal.jstr
         (if lang = "cn" then "工厂注册信息需要手动提供以完成验证。"
          else "Facility registration details need to be provided for verification."))]),
     ("marketingClaims", JVal.jobj
      [("status", JVal.jstr ("warn")),
       ("issueCount", JVal.jnum ("2")),
       ("items", JVal.jarr
         [demoClaimItem ("\"All Natural\"") ("\"纯天然\"") ("warn")
            ("Vague claim — FDA has no formal definition"),
          demoClaimItem ("\"Boosts Immunity\"") ("\"增强免疫力\"") ("fail")
            ("Requires review — health-related claim warrants regulatory assessment per DSHEA"),
          demoClaimItem ("\"Low Sugar\"") ("\"低糖\"") ("pass")
            ("Meets nutrient content claim criteria"),
          demoClaimItem ("\"Non-GMO\"") ("\"非转基因\"") ("info")
            ("Requires third-party certification")]),
       ("riskLevel", JVal.jstr ("high")),
       ("riskPercent", JVal.jnum ("72")),
       ("summary", JVal.jstr
         (if lang = "cn" then "发现 2 项宣传语言问题，风险等级较高。"
          else "2 marketing claim issues found. Risk level is high."))]),
     ("overallRiskLevel", JVal.jstr ("medium")),
     ("overallVerdict", JVal.jstr
       ("Medium structural risk identified. Multiple items require optimization prior to U.S. market entry.")),
     ("overallVerdictCn", JVal.jstr
       ("识别到中等结构风险。多项内容需在进入美国市场前进行优化。")),
     ("recommendations", JVal.jarr
       [JVal.jstr ("Add U.S. customary weight units (oz) per 21 CFR 101.105"),
        JVal.jstr ("Add allergen \"Contains\" statement or bold declaration per FALCPA Sec. 203"),
        JVal.jstr ("Review and revise health-related marketing claim \"Boosts Immunity\" per DSHEA Sec. 403(r)(6)"),
        JVal.jstr ("Clarify or revise \"All Natural\" claim per FD&C Act Sec. 403(a)(1)"),
        JVal.jstr ("Confirm facility FEI number and DUNS with manufacturer per 21 CFR 1.225")]),
     ("recommendationsCn", JVal.jarr
       [JVal.jstr ("依据 21 CFR 101.105 添加美制重量单位 (oz)"),
        JVal.jstr ("依据 FALCPA Sec. 203 添加过敏原\"含有\"声明或加粗标注"),
        JVal.jstr ("依据 DSHEA Sec. 403(r)(6) 审查并修订健康相关宣传语\"增强免疫力\""),
        JVal.jstr ("依据 FD&C Act Sec. 403(a)(1) 明确或修订\"纯天然\"声称"),
        JVal.jstr ("依据 21 CFR 1.225 与工厂确认设施 FEI 编号及 DUNS 信息")])]

/-- The possible HTTP responses of the analyze route. -/
inductive AnalyzeResponse where
  | badRequest (error : String)
  | okAnalysis (demo : Bool) (message : Option String) (data : JVal)
  | parseFailed (error : String) (raw : List Char)
  | serverError (error : String)

/-- Embedding of the `/api/analyze` route handler (server.js).  The
external model call is an oracle input: `Except.error` models a thrown
exception caught by the route's outer catch, `Except.ok` the raw
response text.  The returned Bool records whether `cleanupFiles` ran
before the response was sent. -/
def analyzeHandler (geminiConfigured : Bool) (files : List UploadedFile)
    (langParam : Option String) (modelResult : Except String (List Char)) :
    AnalyzeResponse × Bool :=
  let lang := jsStrOr langParam ("en")
  if files.isEmpty then (AnalyzeResponse.badRequest ("No files uploaded"), false)
  else if !geminiConfigured then
    (AnalyzeResponse.okAnalysis true
      (some ("GEMINI_API_KEY not configured. Returning demo analysis."))
      (getDemoData lang), false)
  else if (files.filter isImagePart).isEmpty then
    (AnalyzeResponse.badRequest ("No valid image/PDF files found"), false)
  else
    match modelResult with
    | Except.error e => (AnalyzeResponse.serverError e, false)
    | Except.ok text =>
      match parseGeminiJSON text with
      | Except.error _ =>
        (AnalyzeResponse.parseFailed ("Failed to parse AI response") (text.take 800), false)
      | Except.ok data => (AnalyzeResponse.okAnalysis false none data, true)

/-- Model of JavaScript `String.prototype.trim` on `String`. -/
def jsTrim (s : String) : String := String.mk (trimJs s.toList)

/-- Base-36 digit as produced by `toString(36).toUpperCase()`. -/
def b36digit (d : Nat) : Char :=
  if d < 10 then Char.ofNat ('0'.toNat + d) else Char.ofNat ('A'.toNat + d - 10)

/-- Digit loop of base-36 printing, structural on a fuel that only
needs to exceed the number of digits. -/
def natToB36F : Nat → Nat → List Char
  | 0, _ => []
  | fuel + 1, n =>
    if n < 36 then [b36digit n]
    else natToB36F fuel (n / 36) ++ [b36digit (n % 36)]

/-- Model of `n.toString(36).toUpperCase()` for a nonnegative integer. -/
def natToB36 (n : Nat) : List Char := natToB36F (n + 1) n

/-- A row of the `reports` table as the routes read and write it. -/
structure SavedReport where
  userId : Nat
  reportId : String
  title : String
  data : JVal
  lang : String
  score : Nat
  createdAt : Nat

/-- The possible HTTP responses of the save-report route. -/
inductive SaveResponse where
  | badRequest (error : String)
  | okSave (reportId : String) (title : String) (score : Nat)

/-- The `riskLevel` local of the save-report handler:
`reportData.overallRiskLevel || "medium"`. -/
def savedRiskLevel (rd : JVal) : JVal :=
  match jget rd ("overallRiskLevel") with
  | some v => if jsTruthy v then v else JVal.jstr ("medium")
  | none => JVal.jstr ("medium")

/-- The `score` local of the save-report handler:
`riskLevel === "low" ? 1 : riskLevel === "high" ? 3 : 2`. -/
def savedScore (rd : JVal) : Nat :=
  if jvalStrEq (savedRiskLevel rd) ("low") then 1
  else if jvalStrEq (savedRiskLevel rd) ("high") then 3 else 2

/-- Embedding of the `POST /api/reports` handler (server.js): derive
the ordinal score from `reportData.overallRiskLevel || "medium"` by the
fixed mapping and insert the new row.  `now` stands for `Date.now()`. -/
def saveReportHandler (store : List SavedReport) (userId : Nat)
    (reportData : Option JVal) (lang : Option String) (title : Option String)
    (now : Nat) : List SavedReport × SaveResponse :=
  let truthyData : Option JVal :=
    match reportData with
    | some v => if jsTruthy v then some v else none
    | none => none
  match truthyData with
  | none => (store, SaveResponse.badRequest ("Report data is required"))
  | some rd =>
    let reportId := "GTM-" ++ String.mk (natToB36 now)
    let score : Nat := savedScore rd
    let reportTitle :=
      jsStrOr title (if lang = some ("cn") then "产品合规结构评估报告"
                     else "Product Compliance Structural Assessment Report")
    let row : SavedReport :=
      { userId := userId, reportId := reportId, title := reportTitle,
        data := rd, lang := jsStrOr lang ("en"), score := score, createdAt := now }
    (store ++ [row], SaveResponse.okSave reportId reportTitle score)

/-- The possible HTTP responses of the get-one-report route. -/
inductive GetReportResponse where
  | notFound
  | okReport (r : SavedReport)

/-- Embedding of the `GET /api/reports/:reportId` handler: the lookup
is scoped to both the path id and the session user; an empty result is
a 404. -/
def getReportHandler (store : List SavedReport) (userId : Nat) (rid : String) :
    GetReportResponse :=
  match store.find? (fun r => r.reportId == rid && r.userId == userId) with
  | none => GetReportResponse.notFound
  | some r => GetReportResponse.okReport r

/-- Row order of the list query: `ORDER BY created_at DESC`. -/
def reportDescOrder (a b : SavedReport) : Prop := b.createdAt ≤ a.createdAt

instance : DecidableRel reportDescOrder := fun _ _ => Nat.decLe _ _

/-- Embedding of the `GET /api/reports` handler: the session user's
rows, newest first, `LIMIT 50`. -/
def listReportsHandler (store : List SavedReport) (userId : Nat) :
    List SavedReport :=
  ((store.filter (fun r => r.userId == userId)).insertionSort reportDescOrder).take 50

/-- The possible HTTP responses of the delete-report route.  The
handler in the source only ever produces `okDelete`; `notFound` is the
response the specification asks for on a non-owner's attempt. -/
inductive DeleteResponse where
  | okDelete
  | notFound

/-- Embedding of the `DELETE /api/reports/:reportId` handler: delete
rows matching both the id and the session user, then respond with
success unconditionally (the row count is never inspected). -/
def deleteReportHandler (store : List SavedReport) (userId : Nat) (rid : String) :
    List SavedReport × DeleteResponse :=
  (store.filter (fun r => !(r.reportId == rid && r.userId == userId)),
   DeleteResponse.okDelete)

/-- A row of the `users` table. -/
structure User where
  email : String
  passwordHash : String
  name : String
  company : String

/-- The possible HTTP responses of the register route. -/
inductive RegisterResponse where
  | badRequest (error : String)
  | conflict (error : String)
  | okRegister (email : String) (name : String) (company : String)

/-- JavaScript falsiness of an optional string field of `req.body`
(absent or empty). -/
def strFalsy (v : Option String) : Bool :=
  match v with
  | none => true
  | some s => s.isEmpty

/-- Embedding of the `POST /api/auth/register` handler (server.js).
`hash` abstracts the external bcrypt collaborator.  Checks run in
source order: required fields, then password length, then duplicate
email, then the insert. -/
def registerHandler (hash : String → String) (store : List User)
    (email password name company : Option String) :
    List User × RegisterResponse :=
  if strFalsy email || strFalsy password || strFalsy name then
    (store, RegisterResponse.badRequest ("Email, password, and name are required"))
  else
    let pw := password.getD ("")
    if pw.length < 6 then
      (store, RegisterResponse.badRequest ("Password must be at least 6 characters"))
    else
      let eNorm := jsTrim (email.getD ("")).toLower
      match store.find? (fun u => u.email == eNorm) with
      | some _ => (store, RegisterResponse.conflict ("Email already registered"))
      | none =>
        let nm := jsTrim (name.getD (""))
        let co := jsTrim (company.getD (""))
        (store ++ [{ email := eNorm, passwordHash := hash pw, name := nm, company := co }],
         RegisterResponse.okRegister eNorm nm co)

/-- The raw text has no opening brace, or its last closing brace does
not come strictly after its first opening brace — the negation of the
salvage tier's extraction condition. -/
def bracesAbsentOrUnordered (text : List Char) : Bool :=
  match firstBraceIdx text, lastBraceIdx text with
  | some i, some j => decide (j ≤ i)
  | some _, none => true
  | none, _ => true

/-- A report owned by user 2, used to exercise the ownership-scoping
properties at a concrete input. -/
def reportOfUser2 : SavedReport :=
  { userId := 2, reportId := "GTM-B1", title := "Saved", data := JVal.jobj [],
    lang := "en", score := 2, createdAt := 10 }

theorem jvalStrEq_eq_true_iff (v : JVal) (s : String) :
    jvalStrEq v s = true ↔ v = JVal.jstr s := by
  cases v <;> simp [jvalStrEq]

theorem jvalStrEq_eq_false_of_ne (v : JVal) (s : String) (h : v ≠ JVal.jstr s) :
    jvalStrEq v s = false := by
  rw [Bool.eq_false_iff]
  intro hh
  exact h ((jvalStrEq_eq_true_iff v s).mp hh)

theorem str_isEmpty_false {s : String} (h : s ≠ "") : s.isEmpty = false := by
  rw [Bool.eq_false_iff]
  intro hh
  exact h ((String.isEmpty_iff s).mp hh)

/-- C1: `parseGeminiJSON` runs its two tiers in strict order: whenever
the strict tier (fence stripping, trim, whole-remainder parse) succeeds
its value is returned as-is, independent of anything the salvage tier
would do; and the salvage tier (outermost brace-delimited substring of
the raw text) is what the function computes exactly when the strict
tier's parse fails. -/
theorem C1_strict_before_salvage (text : List Char) :
    (∀ v, strictTier text = some v → parseGeminiJSON text = Except.ok v) ∧
    (strictTier text = none → parseGeminiJSON text = salvageTier text) := by
  unfold strictTier at *
  constructor
  · intro v h
    unfold parseGeminiJSON
    rw [h]
  · intro h
    unfold parseGeminiJSON salvageTier
    rw [h]

/-- C1 witness: a fenced JSON object is accepted by the strict tier and
returned unchanged. -/
theorem C1_witness :
    parseGeminiJSON (("```json\n\x7b\"a\": 1\x7d\n```").toList) =
      Except.ok (JVal.jobj [("a", JVal.jnum ("1"))]) :=
  (C1_strict_before_salvage (("```json\n\x7b\"a\": 1\x7d\n```").toList)).1
    (JVal.jobj [("a", JVal.jnum ("1"))]) (by rfl)

/-- C5: when the strict tier fails and the raw text has absent or
unordered braces, `parseGeminiJSON` throws the terminal no-JSON error
(no third strategy exists), and the analyze route surfaces it as the
parse-failure response with the truncated raw excerpt. -/
theorem C5_terminal_failure (text : List Char)
    (h1 : strictTier text = none)
    (h2 : bracesAbsentOrUnordered text = true) :
    parseGeminiJSON text = Except.error ("No JSON object found in response") ∧
    ∀ (files : List UploadedFile) (langParam : Option String),
      files ≠ [] → files.filter isImagePart ≠ [] →
      analyzeHandler true files langParam (Except.ok text) =
        (AnalyzeResponse.parseFailed ("Failed to parse AI response") (text.take 800),
         false) := by
  unfold strictTier at h1
  have hp : parseGeminiJSON text = Except.error ("No JSON object found in response") := by
    unfold parseGeminiJSON
    rw [h1]
    unfold bracesAbsentOrUnordered at h2
    rcases hfb : firstBraceIdx text with _ | i <;>
      rcases hlb : lastBraceIdx text with _ | j <;>
        simp only [hfb, hlb, decide_eq_true_eq] at h2 ⊢
    rw [if_neg (by omega)]
  refine ⟨hp, ?_⟩
  intro files langParam hne hparts
  have e1 : files.isEmpty = false := by simp [List.isEmpty_iff, hne]
  have e2 : (files.filter isImagePart).isEmpty = false := by
    simp [List.isEmpty_iff, hparts]
  simp [analyzeHandler, e1, e2, hp]

/-- C5 witness: prose without braces fails both tiers and the route
reports the parse failure. -/
theorem C5_witness :
    parseGeminiJSON (("no json here").toList) =
      Except.error ("No JSON object found in response") ∧
    analyzeHandler true [⟨"image/png", "up/a.png"⟩] (some ("en"))
        (Except.ok (("no json here").toList)) =
      (AnalyzeResponse.parseFailed ("Failed to parse AI response")
        ((("no json here").toList).take 800), false) := by
  have h := C5_terminal_failure (("no json here").toList) (by rfl) (by rfl)
  exact ⟨h.1, h.2 [⟨"image/png", "up/a.png"⟩] (some ("en")) (by simp)
    (by
      have hf : List.filter isImagePart
          [(⟨"image/png", "up/a.png"⟩ : UploadedFile)] =
          [⟨"image/png", "up/a.png"⟩] := rfl
      rw [hf]
      simp)⟩

/-- C8: whenever the analyze route surfaces the malformed-response
failure, the raw-text excerpt it carries is at most 800 characters
long, for every raw model output. -/
theorem C8_excerpt_bounded (g : Bool) (files : List UploadedFile)
    (langParam : Option String) (mr : Except String (List Char))
    (e : String) (raw : List Char) (cleaned : Bool)
    (h : analyzeHandler g files langParam mr =
      (AnalyzeResponse.parseFailed e raw, cleaned)) :
    raw.length ≤ 800 := by
  simp only [analyzeHandler] at h
  split at h
  next => simp at h
  next =>
    split at h
    next => simp at h
    next =>
      split at h
      next => simp at h
      next =>
        split at h
        next => simp at h
        next text =>
          split at h
          next =>
            simp only [Prod.mk.injEq, AnalyzeResponse.parseFailed.injEq] at h
            obtain ⟨⟨-, hraw⟩, -⟩ := h
            rw [← hraw, List.length_take]
            omega
          next => simp at h

/-- C8 witness: a concrete parse failure carries an excerpt within the
bound. -/
theorem C8_witness :
    (("no json here").toList.take 800).length ≤ 800 :=
  C8_excerpt_bounded true [⟨"image/png", "up/a.png"⟩] (some ("en"))
    (Except.ok (("no json here").toList)) ("Failed to parse AI response")
    (("no json here").toList.take 800) false rfl

/-- C6: with no model credential configured, every analyze request with
at least one file gets the fixed demonstration record for its language
selector, flagged `demo = true`; the response is a function of the
language tag alone (files and model outcome do not influence it). -/
theorem C6_demo_mode (files files' : List UploadedFile) (langParam : Option String)
    (mr mr' : Except String (List Char)) (h : files ≠ []) (h' : files' ≠ []) :
    analyzeHandler false files langParam mr =
      (AnalyzeResponse.okAnalysis true
        (some ("GEMINI_API_KEY not configured. Returning demo analysis."))
        (getDemoData (jsStrOr langParam ("en"))), false) ∧
    analyzeHandler false files langParam mr =
      analyzeHandler false files' langParam mr' := by
  have e1 : files.isEmpty = false := by simp [List.isEmpty_iff, h]
  have e2 : files'.isEmpty = false := by simp [List.isEmpty_iff, h']
  constructor
  · simp [analyzeHandler, e1]
  · simp [analyzeHandler, e1, e2]

/-- C6 witness: two demo-mode requests differing in files and model
outcome produce the same flagged demo response. -/
theorem C6_witness :
    analyzeHandler false [⟨"image/png", "up/a.png"⟩] (some ("cn"))
        (Except.ok []) =
      (AnalyzeResponse.okAnalysis true
        (some ("GEMINI_API_KEY not configured. Returning demo analysis."))
        (getDemoData (jsStrOr (some ("cn")) ("en"))), false) ∧
    analyzeHandler false [⟨"image/png", "up/a.png"⟩] (some ("cn"))
        (Except.ok []) =
      analyzeHandler false [⟨"application/pdf", "up/b.pdf"⟩] (some ("cn"))
        (Except.error ("boom")) :=
  C6_demo_mode [⟨"image/png", "up/a.png"⟩] [⟨"application/pdf", "up/b.pdf"⟩]
    (some ("cn")) (Except.ok []) (Except.error ("boom")) (by simp) (by simp)

/-- C2 counterexample: the empty JSON object parses successfully, has
none of the four required sections, yet the analyze flow returns it as
a success — it is not rejected as MalformedResponse/ShapeInvalid. -/
theorem C2_counterexample :
    analyzeHandler true [⟨"image/png", "up/a.png"⟩] (some ("en"))
        (Except.ok (("\x7b\x7d").toList)) =
      (AnalyzeResponse.okAnalysis false none (JVal.jobj []), true) ∧
    jget (JVal.jobj []) ("ingredientRisk") = none ∧
    jget (JVal.jobj []) ("labelCompliance") = none ∧
    jget (JVal.jobj []) ("facilityRegistration") = none ∧
    jget (JVal.jobj []) ("marketingClaims") = none :=
  ⟨rfl, rfl, rfl, rfl, rfl⟩

/-- C2 amended: after a successful parse the analyze flow returns the
parsed value as success directly — no shape validation runs, so a
parseable value violating the required shape is returned as success
rather than rejected with a ShapeInvalid diagnostic. -/
theorem C2_amended_no_shape_validation (files : List UploadedFile)
    (langParam : Option String) (text : List Char) (v : JVal)
    (h1 : files ≠ []) (h2 : files.filter isImagePart ≠ [])
    (hp : parseGeminiJSON text = Except.ok v) :
    analyzeHandler true files langParam (Except.ok text) =
      (AnalyzeResponse.okAnalysis false none v, true) := by
  have e1 : files.isEmpty = false := by simp [List.isEmpty_iff, h1]
  have e2 : (files.filter isImagePart).isEmpty = false := by
    simp [List.isEmpty_iff, h2]
  simp [analyzeHandler, e1, e2, hp]

/-- C2 amended witness: a shapeless but parseable object is returned as
success. -/
theorem C2_amended_witness :
    analyzeHandler true [⟨"image/png", "up/a.png"⟩] none
        (Except.ok (("\x7b\"x\": true\x7d").toList)) =
      (AnalyzeResponse.okAnalysis false none
        (JVal.jobj [("x", JVal.jbool true)]), true) :=
  C2_amended_no_shape_validation [⟨"image/png", "up/a.png"⟩] none
    (("\x7b\"x\": true\x7d").toList) (JVal.jobj [("x", JVal.jbool true)])
    (by simp)
    (by
      have hf : List.filter isImagePart
          [(⟨"image/png", "up/a.png"⟩ : UploadedFile)] =
          [⟨"image/png", "up/a.png"⟩] := rfl
      rw [hf]
      simp)
    (by rfl)

/-- C3: evaluation of the analyze handler at its failure exits: the
uploaded files are not deleted on the demo short-circuit, the
parse-failure path, or the model-error path; cleanup runs only on the
live success path. -/
theorem C3_cleanup_only_on_success :
    (analyzeHandler false [⟨"image/png", "up/a.png"⟩] (some ("en"))
        (Except.ok [])).2 = false ∧
    (analyzeHandler true [⟨"image/png", "up/a.png"⟩] (some ("en"))
        (Except.ok (("not json").toList))).2 = false ∧
    (analyzeHandler true [⟨"image/png", "up/a.png"⟩] (some ("en"))
        (Except.error ("model call threw"))).2 = false ∧
    (analyzeHandler true [⟨"image/png", "up/a.png"⟩] (some ("en"))
        (Except.ok (("\x7b\"a\":1\x7d").toList))).2 = true :=
  ⟨rfl, rfl, rfl, rfl⟩

/-- C4 counterexample: with the store holding only a report owned by
user 2, user 1's DELETE of that report responds with the success
response, not NotFound — the handler never inspects the row count, so
the claimed NotFound failure for non-owner deletes does not occur. -/
theorem C4_counterexample :
    (deleteReportHandler [reportOfUser2] 1 ("GTM-B1")).2 =
      DeleteResponse.okDelete ∧
    DeleteResponse.okDelete ≠ DeleteResponse.notFound :=
  ⟨rfl, by simp⟩

/-- C4 amended: lookups are owner-scoped.  For a requesting user who
owns no report with the given id: GET fails with NotFound, the list
never contains another owner's reports, and DELETE removes nothing and
responds with success (the same response as for a nonexistent id),
rather than NotFound. -/
theorem C4_amended_owner_scoping (store : List SavedReport) (a : Nat) (rid : String)
    (hOwn : ∀ r ∈ store, r.reportId = rid → r.userId ≠ a) :
    getReportHandler store a rid = GetReportResponse.notFound ∧
    (∀ r ∈ listReportsHandler store a, r.userId = a) ∧
    deleteReportHandler store a rid = (store, DeleteResponse.okDelete) := by
  refine ⟨?_, ?_, ?_⟩
  · have hf : store.find? (fun r => r.reportId == rid && r.userId == a) = none := by
      rw [List.find?_eq_none]
      intro r hr
      simp only [Bool.and_eq_true, beq_iff_eq, not_and]
      exact fun h1 => hOwn r hr h1
    simp [getReportHandler, hf]
  · intro r hr
    simp only [listReportsHandler] at hr
    have h1 : r ∈ (store.filter (fun r => r.userId == a)).insertionSort
        reportDescOrder := List.take_subset 50 _ hr
    have h2 : r ∈ store.filter (fun r => r.userId == a) :=
      (List.perm_insertionSort reportDescOrder _).mem_iff.mp h1
    simpa using (List.mem_filter.mp h2).2
  · simp only [deleteReportHandler, Prod.mk.injEq]
    refine ⟨List.filter_eq_self.mpr ?_, trivial⟩
    intro r hr
    simp only [Bool.not_eq_true', Bool.and_eq_false_iff]
    rcases eq_or_ne r.reportId rid with h1 | h1
    · right
      exact beq_eq_false_iff_ne.mpr (hOwn r hr h1)
    · left
      exact beq_eq_false_iff_ne.mpr h1

/-- C4 amended witness: the amended property at the concrete one-report
store. -/
theorem C4_amended_witness :
    getReportHandler [reportOfUser2] 1 ("GTM-B1") = GetReportResponse.notFound ∧
    (∀ r ∈ listReportsHandler [reportOfUser2] 1, r.userId = 1) ∧
    deleteReportHandler [reportOfUser2] 1 ("GTM-B1") =
      ([reportOfUser2], DeleteResponse.okDelete) :=
  C4_amended_owner_scoping [reportOfUser2] 1 ("GTM-B1")
    (by
      intro r hr h1
      simp only [List.mem_singleton] at hr
      subst hr
      simp [reportOfUser2])

/-- C7: saving a report whose record carries overallRiskLevel low,
medium or high persists the score 1, 2 or 3 respectively, under the
fixed mapping, on the row inserted for the requesting user. -/
theorem C7_score_mapping (store : List SavedReport) (u : Nat)
    (fs : List (String × JVal)) (lang title : Option String) (now : Nat)
    (lvl : String) (sc : Nat)
    (hlvl : jget (JVal.jobj fs) ("overallRiskLevel") = some (JVal.jstr lvl))
    (hmap : (lvl = "low" ∧ sc = 1) ∨ (lvl = "medium" ∧ sc = 2) ∨
            (lvl = "high" ∧ sc = 3)) :
    ∃ row : SavedReport,
      (saveReportHandler store u (some (JVal.jobj fs)) lang title now).1 =
        store ++ [row] ∧
      row.score = sc ∧ row.userId = u := by
  refine ⟨{ userId := u,
            reportId := "GTM-" ++ String.mk (natToB36 now),
            title := jsStrOr title
              (if lang = some ("cn") then "产品合规结构评估报告"
               else "Product Compliance Structural Assessment Report"),
            data := JVal.jobj fs, lang := jsStrOr lang ("en"),
            score := savedScore (JVal.jobj fs), createdAt := now }, ?_, ?_, rfl⟩
  · simp [saveReportHandler, jsTruthy]
  · show savedScore (JVal.jobj fs) = sc
    rcases hmap with ⟨h1, h2⟩ | ⟨h1, h2⟩ | ⟨h1, h2⟩ <;> subst h1 <;> subst h2 <;>
      simp only [savedScore, savedRiskLevel, hlvl] <;> decide

/-- C7 witness: the three risk levels at concrete save requests. -/
theorem C7_witness :
    (∃ row : SavedReport,
      (saveReportHandler [] 7
        (some (JVal.jobj [("overallRiskLevel", JVal.jstr ("low"))]))
        (some ("en")) none 0).1 = [] ++ [row] ∧
      row.score = 1 ∧ row.userId = 7) ∧
    (∃ row : SavedReport,
      (saveReportHandler [] 7
        (some (JVal.jobj [("overallRiskLevel", JVal.jstr ("medium"))]))
        (some ("en")) none 0).1 = [] ++ [row] ∧
      row.score = 2 ∧ row.userId = 7) ∧
    (∃ row : SavedReport,
      (saveReportHandler [] 7
        (some (JVal.jobj [("overallRiskLevel", JVal.jstr ("high"))]))
        (some ("en")) none 0).1 = [] ++ [row] ∧
      row.score = 3 ∧ row.userId = 7) :=
  ⟨C7_score_mapping [] 7 [("overallRiskLevel", JVal.jstr ("low"))]
      (some ("en")) none 0 ("low") 1 rfl (Or.inl ⟨rfl, rfl⟩),
   C7_score_mapping [] 7 [("overallRiskLevel", JVal.jstr ("medium"))]
      (some ("en")) none 0 ("medium") 2 rfl (Or.inr (Or.inl ⟨rfl, rfl⟩)),
   C7_score_mapping [] 7 [("overallRiskLevel", JVal.jstr ("high"))]
      (some ("en")) none 0 ("high") 3 rfl (Or.inr (Or.inr ⟨rfl, rfl⟩))⟩

/-- C10: a save request whose record lacks overallRiskLevel, or whose
overallRiskLevel is any value other than the strings low and high,
persists the default medium score 2 instead of being rejected. -/
theorem C10_default_score (store : List SavedReport) (u : Nat)
    (fs : List (String × JVal)) (lang title : Option String) (now : Nat)
    (h : jget (JVal.jobj fs) ("overallRiskLevel") = none ∨
         ∃ v, jget (JVal.jobj fs) ("overallRiskLevel") = some v ∧
              v ≠ JVal.jstr ("low") ∧ v ≠ JVal.jstr ("high")) :
    ∃ row : SavedReport,
      (saveReportHandler store u (some (JVal.jobj fs)) lang title now).1 =
        store ++ [row] ∧
      row.score = 2 := by
  refine ⟨{ userId := u,
            reportId := "GTM-" ++ String.mk (natToB36 now),
            title := jsStrOr title
              (if lang = some ("cn") then "产品合规结构评估报告"
               else "Product Compliance Structural Assessment Report"),
            data := JVal.jobj fs, lang := jsStrOr lang ("en"),
            score := savedScore (JVal.jobj fs), createdAt := now }, ?_, ?_⟩
  · simp [saveReportHandler, jsTruthy]
  · show savedScore (JVal.jobj fs) = 2
    rcases h with h | ⟨v, hv, hlo, hhi⟩
    · simp [savedScore, savedRiskLevel, h, jvalStrEq]
    · rcases ht : jsTruthy v with _ | _
      · simp [savedScore, savedRiskLevel, hv, ht, jvalStrEq]
      · simp [savedScore, savedRiskLevel, hv, ht,
          jvalStrEq_eq_false_of_ne v ("low") hlo,
          jvalStrEq_eq_false_of_ne v ("high") hhi]

/-- C10 witness: an unrecognized risk string and an absent field both
persist score 2. -/
theorem C10_witness :
    (∃ row : SavedReport,
      (saveReportHandler [] 7
        (some (JVal.jobj [("overallRiskLevel", JVal.jstr ("unknown"))]))
        none none 0).1 = [] ++ [row] ∧
      row.score = 2) ∧
    (∃ row : SavedReport,
      (saveReportHandler [] 7 (some (JVal.jobj [("x", JVal.jnull)]))
        none none 0).1 = [] ++ [row] ∧
      row.score = 2) :=
  ⟨C10_default_score [] 7 [("overallRiskLevel", JVal.jstr ("unknown"))] none none 0
      (Or.inr ⟨JVal.jstr ("unknown"), rfl, by simp, by simp⟩),
   C10_default_score [] 7 [("x", JVal.jnull)] none none 0 (Or.inl rfl)⟩

/-- C9 counterexample: an empty password is shorter than 6 characters,
yet registration responds with the missing-fields 400 error, not the
password-length 400 error (the falsy-field check runs first); no user
row is created either way. -/
theorem C9_counterexample :
    ("" : String).length < 6 ∧
    registerHandler id [] (some ("a@b.c")) (some ("")) (some ("Alice")) none =
      ([], RegisterResponse.badRequest ("Email, password, and name are required")) ∧
    RegisterResponse.badRequest ("Email, password, and name are required") ≠
      RegisterResponse.badRequest ("Password must be at least 6 characters") :=
  ⟨by decide, rfl, by simp⟩

/-- C9 amended: a registration whose password is shorter than 6
characters creates no user row and fails with a 400 error: the
password-length error when the password is nonempty, and the
missing-fields error when it is empty. -/
theorem C9_amended_password_length (hash : String → String) (store : List User)
    (e pw nm : String) (co : Option String)
    (he : e ≠ "") (hn : nm ≠ "") (hpw : pw.length < 6) :
    (registerHandler hash store (some e) (some pw) (some nm) co).1 = store ∧
    (registerHandler hash store (some e) (some pw) (some nm) co).2 =
      (if pw = "" then
        RegisterResponse.badRequest ("Email, password, and name are required")
       else
        RegisterResponse.badRequest ("Password must be at least 6 characters")) := by
  by_cases hp : pw = ""
  · subst hp
    have h0 : ("" : String).isEmpty = true := rfl
    constructor <;> simp [registerHandler, strFalsy, h0]
  · have hef : e.isEmpty = false := str_isEmpty_false he
    have hpf : pw.isEmpty = false := str_isEmpty_false hp
    have hnf : nm.isEmpty = false := str_isEmpty_false hn
    constructor <;> simp [registerHandler, strFalsy, hef, hpf, hnf, hpw, hp]

/-- C9 amended witness: a 4-character password is rejected with the
password-length error and no row is inserted. -/
theorem C9_amended_witness :
    (registerHandler id [] (some ("a@b.c")) (some ("abcd")) (some ("Alice"))
      none).1 = [] ∧
    (registerHandler id [] (some ("a@b.c")) (some ("abcd")) (some ("Alice"))
      none).2 =
      (if ("abcd" : String) = "" then
        RegisterResponse.badRequest ("Email, password, and name are required")
       else
        RegisterResponse.badRequest ("Password must be at least 6 characters")) :=
  C9_amended_password_length id [] ("a@b.c") ("abcd") ("Alice") none
    (by decide) (by decide) (by decide)

end GoGlobal
